import Mathlib

/-!
Verification development for the CFO portal's financial-model core
(`views/financial_model.py`) and the assumptions registry
(`data_access.py`, `views/assumptions.py`).

Python floats are modelled as real numbers; a pandas NaN cell is
modelled as `Option ℝ` with `none` for NaN.  Calendar timestamps are
modelled by their (year, month) pair, which is all `run_projection`
reads after its `replace(day=1)` normalisation.  A Python `dict`
lookup that can raise `KeyError` is modelled as an `Option`-valued
lookup, with `none` standing for the raised error.
-/

/-- A calendar month: the (year, month) part of a `date`/`Timestamp`
normalised to the first of the month. -/
structure CalDate where
  year : Int
  month : Int
deriving DecidableEq

/-- `_months_between(start, end)`:
`(end.year - start.year) * 12 + (end.month - start.month)`. -/
def monthsBetween (start stop : CalDate) : Int :=
  (stop.year - start.year) * 12 + (stop.month - start.month)

/-- One entry of the `STRESS_CASES` dict: multiplicative adjustment
factors for growth, margin and opex, plus the display label. -/
structure StressPreset where
  growth : ℝ
  margin : ℝ
  opex : ℝ
  label : String

/-- The `"Base"` preset of `STRESS_CASES`. -/
def basePreset : StressPreset := ⟨1.0, 1.0, 1.0, "Balanced outlook"⟩

/-- The `"Upside"` preset of `STRESS_CASES`. -/
def upsidePreset : StressPreset := ⟨1.2, 1.05, 0.92, "Optimistic demand"⟩

/-- The `"Downside"` preset of `STRESS_CASES`. -/
def downsidePreset : StressPreset := ⟨0.7, 0.9, 1.12, "Conservative stress"⟩

/-- The module-level `STRESS_CASES` dict.  `none` models the
`KeyError` raised by `STRESS_CASES[name]` for an unknown name. -/
def STRESS_CASES (name : String) : Option StressPreset :=
  if name = "Base" then some basePreset
  else if name = "Upside" then some upsidePreset
  else if name = "Downside" then some downsidePreset
  else none

/-- The `ScenarioInputs` dataclass.  The source fields `opex_ratio`
and `capex_ratio` are named `opex_frac` and `capex_frac` here. -/
structure ScenarioInputs where
  label : String
  scenario_type : String
  stress_case : String
  initial_cash : ℝ
  revenue_growth : ℝ
  gross_margin : ℝ
  opex_frac : ℝ
  capex_frac : ℝ
  owner_draw : ℝ
  equity_injection : ℝ
  construction_start : CalDate
  construction_duration_months : Nat
  family_basket_value : ℝ
  families_per_month : ℝ
  loan_amount : ℝ
  loan_rate : ℝ
  loan_term_years : Nat

/-- `growth = min(inputs.revenue_growth * preset["growth"], 0.9)`. -/
noncomputable def effGrowth (inp : ScenarioInputs) (p : StressPreset) : ℝ :=
  min (inp.revenue_growth * p.growth) 0.9

/-- `gross_margin = max(min(inputs.gross_margin * preset["margin"], 0.95), 0.05)`. -/
noncomputable def effMargin (inp : ScenarioInputs) (p : StressPreset) : ℝ :=
  max (min (inp.gross_margin * p.margin) 0.95) 0.05

/-- `opex_ratio = max(min(inputs.opex_ratio * preset["opex"], 0.95), 0.05)`. -/
noncomputable def effOpex (inp : ScenarioInputs) (p : StressPreset) : ℝ :=
  max (min (inp.opex_frac * p.opex) 0.95) 0.05

/-- `monthly_growth = (1 + growth) ** (1 / 12) - 1`. -/
noncomputable def monthlyGrowth (inp : ScenarioInputs) (p : StressPreset) : ℝ :=
  (1 + effGrowth inp p) ^ ((1 : ℝ) / 12) - 1

/-- `launch_offset = max(0, _months_between(model_start, construction_start)
+ construction_duration_months)`; a natural number since it is floored at 0. -/
def launchOffset (inp : ScenarioInputs) (ms : CalDate) : Nat :=
  (max 0 (monthsBetween ms inp.construction_start +
    (inp.construction_duration_months : Int))).toNat

/-- `Families Active` column: `families_per_month * (post_launch_idx + 1)`
at or after the launch offset, zero before. -/
noncomputable def familiesActive (inp : ScenarioInputs) (ms : CalDate) (i : Nat) : ℝ :=
  if launchOffset inp ms ≤ i then
    inp.families_per_month * ((i - launchOffset inp ms + 1 : Nat) : ℝ)
  else 0

/-- Basket series: `family_basket_value * (1+monthly_growth) ** post_launch_idx`
at or after the launch offset, zero before. -/
noncomputable def basketSeries (inp : ScenarioInputs) (p : StressPreset) (ms : CalDate)
    (i : Nat) : ℝ :=
  if launchOffset inp ms ≤ i then
    inp.family_basket_value * (1 + monthlyGrowth inp p) ^ (i - launchOffset inp ms)
  else 0

/-- `Revenue = families * basket_series`. -/
noncomputable def revenueCol (inp : ScenarioInputs) (p : StressPreset) (ms : CalDate)
    (i : Nat) : ℝ :=
  familiesActive inp ms i * basketSeries inp p ms i

/-- `COGS = -Revenue * (1 - gross_margin)`. -/
noncomputable def cogsCol (inp : ScenarioInputs) (p : StressPreset) (ms : CalDate)
    (i : Nat) : ℝ :=
  -(revenueCol inp p ms i) * (1 - effMargin inp p)

/-- `Operating Expenses = -Revenue * opex_ratio`. -/
noncomputable def opexCol (inp : ScenarioInputs) (p : StressPreset) (ms : CalDate)
    (i : Nat) : ℝ :=
  -(revenueCol inp p ms i) * effOpex inp p

/-- `Capex = -Revenue * capex_ratio`. -/
noncomputable def capexCol (inp : ScenarioInputs) (p : StressPreset) (ms : CalDate)
    (i : Nat) : ℝ :=
  -(revenueCol inp p ms i) * inp.capex_frac

/-- `Owner Draw = -owner_draw` (constant column). -/
noncomputable def ownerDrawCol (inp : ScenarioInputs) : ℝ := -inp.owner_draw

/-- `loan_draw_idx = min(max(_months_between(model_start, construction_start), 0),
projection_months - 1)`. -/
def loanDrawIdx (inp : ScenarioInputs) (ms : CalDate) (n : Nat) : Nat :=
  min (max 0 (monthsBetween ms inp.construction_start)).toNat (n - 1)

/-- `Financing` column: equity injection at index 0, plus the loan amount at
`loan_draw_idx` when `loan_amount > 0`. -/
noncomputable def financingCol (inp : ScenarioInputs) (ms : CalDate) (n : Nat)
    (i : Nat) : ℝ :=
  (if i = 0 then inp.equity_injection else 0) +
    (if 0 < inp.loan_amount ∧ i = loanDrawIdx inp ms n then inp.loan_amount else 0)

/-- `loan_rate_monthly = inputs.loan_rate / 12 if inputs.loan_rate else 0.0`. -/
noncomputable def loanRateMonthly (inp : ScenarioInputs) : ℝ :=
  if inp.loan_rate = 0 then 0 else inp.loan_rate / 12

/-- `term_months = max(1, loan_term_years * 12)`. -/
def termMonths (inp : ScenarioInputs) : Nat :=
  max 1 (inp.loan_term_years * 12)

/-- The fixed amortizing payment: straight-line division at zero monthly rate,
otherwise the closed-form annuity formula
`loan_amount * r / (1 - (1 + r) ** (-term_months))`. -/
noncomputable def amortPayment (inp : ScenarioInputs) : ℝ :=
  if loanRateMonthly inp = 0 then inp.loan_amount / (termMonths inp : ℝ)
  else
    inp.loan_amount * loanRateMonthly inp /
      (1 - (1 + loanRateMonthly inp) ^ (-(termMonths inp : Int)))

/-- `Debt Service` column: when a loan exists, minus the interest-only
payment before the launch offset and minus the amortizing payment from
the launch offset on; zero when `loan_amount` is 0. -/
noncomputable def debtServiceCol (inp : ScenarioInputs) (ms : CalDate) (i : Nat) : ℝ :=
  if 0 < inp.loan_amount then
    -(if i < launchOffset inp ms then inp.loan_amount * loanRateMonthly inp
      else amortPayment inp)
  else 0

/-- `EBITDA = Revenue + COGS + Operating Expenses`. -/
noncomputable def ebitdaCol (inp : ScenarioInputs) (p : StressPreset) (ms : CalDate)
    (i : Nat) : ℝ :=
  revenueCol inp p ms i + cogsCol inp p ms i + opexCol inp p ms i

/-- `Net Cash Flow = EBITDA + Capex + Owner Draw + Financing + Debt Service`. -/
noncomputable def netCashFlow (inp : ScenarioInputs) (p : StressPreset) (ms : CalDate)
    (n : Nat) (i : Nat) : ℝ :=
  ebitdaCol inp p ms i + capexCol inp p ms i + ownerDrawCol inp +
    financingCol inp ms n i + debtServiceCol inp ms i

/-- `Cumulative Cash = initial_cash + cumsum(Net Cash Flow)`. -/
noncomputable def cumulativeCash (inp : ScenarioInputs) (p : StressPreset) (ms : CalDate)
    (n : Nat) : Nat → ℝ
  | 0 => inp.initial_cash + netCashFlow inp p ms n 0
  | i + 1 => cumulativeCash inp p ms n i + netCashFlow inp p ms n (i + 1)

/-- Running minimum of `Cumulative Cash` over indices `0..i`. -/
noncomputable def minCumCash (inp : ScenarioInputs) (p : StressPreset) (ms : CalDate)
    (n : Nat) : Nat → ℝ
  | 0 => cumulativeCash inp p ms n 0
  | i + 1 => min (minCumCash inp p ms n i) (cumulativeCash inp p ms n (i + 1))

open Classical in
/-- Index of the first month whose cumulative cash is negative
(`below_zero.index[0]`), `none` when `below_zero` is empty. -/
noncomputable def runwayIdx (inp : ScenarioInputs) (p : StressPreset) (ms : CalDate)
    (n : Nat) : Option Nat :=
  if h : ∃ i, i < n ∧ cumulativeCash inp p ms n i < 0 then some (Nat.find h) else none

open Classical in
/-- Index of the first month whose cumulative cash is at least the
initial cash (`payback_df.index[0]`), `none` when never reached. -/
noncomputable def paybackIdx (inp : ScenarioInputs) (p : StressPreset) (ms : CalDate)
    (n : Nat) : Option Nat :=
  if h : ∃ i, i < n ∧ inp.initial_cash ≤ cumulativeCash inp p ms n i then
    some (Nat.find h)
  else none

/-- The parts of the `run_projection` return value the claims are
about: the month-indexed columns of `df` (indexed by offset from the
model start) and the derived scalar metrics.  `runway_months = none`
models the Python value `float("inf")`; `payback_months = none`
models the absent payback (`None`). -/
structure ProjectionResult where
  familiesActive : Nat → ℝ
  revenue : Nat → ℝ
  cogs : Nat → ℝ
  opex : Nat → ℝ
  capex : Nat → ℝ
  ownerDraw : ℝ
  financing : Nat → ℝ
  debtService : Nat → ℝ
  ebitda : Nat → ℝ
  netCashFlow : Nat → ℝ
  cumulativeCash : Nat → ℝ
  scenario_label : String
  min_cash : ℝ
  final_cash : ℝ
  annual_recurring_revenue : ℝ
  runway_months : Option Nat
  safety_buffer : Option ℝ
  payback_months : Option Nat
  cash_shortfall : ℝ

/-- The body of `run_projection` once the stress preset has been
resolved, assembling the projection columns and derived metrics. -/
noncomputable def projWith (inp : ScenarioInputs) (p : StressPreset) (n : Nat)
    (safety : ℝ) (ms : CalDate) : ProjectionResult where
  familiesActive := familiesActive inp ms
  revenue := revenueCol inp p ms
  cogs := cogsCol inp p ms
  opex := opexCol inp p ms
  capex := capexCol inp p ms
  ownerDraw := ownerDrawCol inp
  financing := financingCol inp ms n
  debtService := debtServiceCol inp ms
  ebitda := ebitdaCol inp p ms
  netCashFlow := netCashFlow inp p ms n
  cumulativeCash := cumulativeCash inp p ms n
  scenario_label := inp.label
  min_cash := minCumCash inp p ms n (n - 1)
  final_cash := cumulativeCash inp p ms n (n - 1)
  annual_recurring_revenue := revenueCol inp p ms (n - 1) * 12
  runway_months := (runwayIdx inp p ms n).map (fun i => i + 1)
  safety_buffer := (runwayIdx inp p ms n).map (fun i => ((i + 1 : Nat) : ℝ) - safety)
  payback_months := (paybackIdx inp p ms n).map (fun i => i + 1)
  cash_shortfall :=
    if minCumCash inp p ms n (n - 1) < 0 then |minCumCash inp p ms n (n - 1)| else 0

/-- `run_projection(inputs, projection_months, cash_safety_months, model_start)`.
The first statement, `STRESS_CASES[inputs.stress_case]`, raises `KeyError`
for an unknown stress case; this is modelled by the `none` result. -/
noncomputable def run_projection (inp : ScenarioInputs) (n : Nat) (safety : ℝ)
    (ms : CalDate) : Option ProjectionResult :=
  (STRESS_CASES inp.stress_case).map (fun p => projWith inp p n safety ms)

/-- Which of the three case-specific columns of the assumptions
register a `CASE_TO_COLUMN` name denotes: `low_case`, `base_value`
or `high_case`. -/
inductive CaseCol where
  | low
  | base
  | high
deriving DecidableEq

/-- `CASE_TO_COLUMN.get(case, "base_value")`: the column selected for a
case name, defaulting to the `base_value` column for unknown names. -/
def caseToColumn (case : String) : CaseCol :=
  if case = "Conservative" then CaseCol.low
  else if case = "Likely" then CaseCol.base
  else if case = "Aggressive" then CaseCol.high
  else CaseCol.base

/-- One row of `assumptions_register.csv`, restricted to the columns the
modelled operations read or write: the row key and the three
case-specific value columns.  `none` models a NaN cell. -/
structure RegRow where
  item_key : String
  low_case : Option ℝ
  base_value : Option ℝ
  high_case : Option ℝ

/-- `row[column]` for a case column. -/
def getCol (r : RegRow) : CaseCol → Option ℝ
  | CaseCol.low => r.low_case
  | CaseCol.base => r.base_value
  | CaseCol.high => r.high_case

/-- `row[column] = value` for a case column. -/
def setCol (r : RegRow) (c : CaseCol) (v : ℝ) : RegRow :=
  match c with
  | CaseCol.low => { r with low_case := some v }
  | CaseCol.base => { r with base_value := some v }
  | CaseCol.high => { r with high_case := some v }

/-- The `MODEL_DRIVER_KEYS` whitelist. -/
def MODEL_DRIVER_KEYS : List String :=
  ["market_households",
   "household_penetration_y1",
   "household_penetration_y2",
   "household_penetration_y3",
   "visits_per_household_week",
   "avg_basket_size_y1",
   "gross_margin_target",
   "shrink_pct_sales",
   "vendor_rebates_pct_sales",
   "store_payroll_pct_sales",
   "payroll_burden_pct_wages",
   "marketing_pct_sales",
   "repairs_maintenance_pct_sales",
   "inventory_days_on_hand",
   "ap_days_payable",
   "construction_loan_commitment",
   "construction_rate_annual",
   "permanent_loan_rate",
   "bridge_loan_rate",
   "dscr_min_target",
   "inflation_general",
   "inflation_wages",
   "inflation_food_cost",
   "discount_rate_npv",
   "cash_runway_target_months"]

/-- One step of the dict comprehension of `get_model_assumptions`:
enter `row[column]` under `row["item_key"]` when the key is
whitelisted and the cell is not NaN, otherwise leave the dict as is. -/
def gmaStep (case : String) (d : String → Option ℝ) (r : RegRow) : String → Option ℝ :=
  if r.item_key ∈ MODEL_DRIVER_KEYS then
    match getCol r (caseToColumn case) with
    | some v => fun k => if k = r.item_key then some v else d k
    | none => d
  else d

/-- `get_model_assumptions(case)`, as a function of the register table:
the dict built row by row over the rows whose key is whitelisted,
entering `row[column]` for the selected case column and skipping NaN
cells.  The returned function is the dict lookup (`none` = key absent). -/
def get_model_assumptions (t : List RegRow) (case : String) : String → Option ℝ :=
  t.foldl (gmaStep case) (fun _ => none)

/-- The durable state behind the assumptions register: the CSV file
contents on disk and the `st.cache_data` memo of
`load_assumptions_register` (`none` = cache empty).  CSV
serialisation is modelled as the identity on tables. -/
structure RegStore where
  disk : List RegRow
  cache : Option (List RegRow)

/-- `load_assumptions_register()`: return the cached table if the cache
is filled, otherwise read the CSV and fill the cache.  Returns the
table together with the updated store state. -/
def load_assumptions_register (s : RegStore) : List RegRow × RegStore :=
  match s.cache with
  | some t => (t, s)
  | none => (s.disk, { s with cache := some s.disk })

/-- `save_assumptions_register(df)`: `df.to_csv(...)` then
`load_assumptions_register.clear()` — overwrite the disk table and
invalidate the cache. -/
def save_assumptions_register (t : List RegRow) (_s : RegStore) : RegStore :=
  { disk := t, cache := none }

/-- The editor's per-key write (`df.loc[df["item_key"] == key, case_col] = value`):
set the case column of every row whose key matches. -/
def writeCase (t : List RegRow) (key : String) (c : CaseCol) (v : ℝ) : List RegRow :=
  t.map (fun r => if r.item_key = key then setCol r c v else r)

/-- The assumptions editor's save path for a single key: load the
register, write the value into the case column of that key's row, and
persist via `save_assumptions_register`. -/
def update_and_persist (s : RegStore) (key : String) (case : String) (v : ℝ) : RegStore :=
  let loaded := load_assumptions_register s
  save_assumptions_register (writeCase loaded.1 key (caseToColumn case) v) loaded.2

/-- A model start month used by the concrete scenarios below. -/
def sampleStart : CalDate := ⟨2026, 1⟩

/-- A small concrete scenario (Base stress, no loan) used to
instantiate the general theorems. -/
noncomputable def sampleInputs : ScenarioInputs where
  label := "Start from Scratch (Base)"
  scenario_type := "Start from Scratch"
  stress_case := "Base"
  initial_cash := 100
  revenue_growth := 0
  gross_margin := 0.5
  opex_frac := 0.3
  capex_frac := 0.1
  owner_draw := 1
  equity_injection := 0
  construction_start := ⟨2026, 1⟩
  construction_duration_months := 1
  family_basket_value := 10
  families_per_month := 2
  loan_amount := 0
  loan_rate := 0
  loan_term_years := 1

/-- The concrete scenario of the spec's testable-properties section:
initial cash 200000, no loan, owner draw 10000, 120 families per
month, basket 450, 12 months of construction starting at the model
start, Base stress, no equity injection. -/
noncomputable def c3inputs : ScenarioInputs where
  label := "Start from Scratch (Base)"
  scenario_type := "Start from Scratch"
  stress_case := "Base"
  initial_cash := 200000
  revenue_growth := 0.15
  gross_margin := 0.33
  opex_frac := 0.35
  capex_frac := 0.04
  owner_draw := 10000
  equity_injection := 0
  construction_start := ⟨2026, 1⟩
  construction_duration_months := 12
  family_basket_value := 450
  families_per_month := 120
  loan_amount := 0
  loan_rate := 0
  loan_term_years := 10

/-- The projection of the concrete scenario over 36 months. -/
noncomputable def c3res : ProjectionResult :=
  projWith c3inputs basePreset 36 6 sampleStart

/-- A concrete zero-rate loan scenario. -/
noncomputable def c4inputs : ScenarioInputs where
  label := "Acquire Existing Business (Base)"
  scenario_type := "Acquire Existing Business"
  stress_case := "Base"
  initial_cash := 50000
  revenue_growth := 0.1
  gross_margin := 0.4
  opex_frac := 0.3
  capex_frac := 0.02
  owner_draw := 2000
  equity_injection := 0
  construction_start := ⟨2026, 3⟩
  construction_duration_months := 6
  family_basket_value := 300
  families_per_month := 50
  loan_amount := 1200
  loan_rate := 0
  loan_term_years := 10

/-- Base record of the stress-comparison counterexample: identical
inputs for the Upside and Downside runs apart from the stress case;
its revenue growth is negative (a declining market). -/
noncomputable def c2base : ScenarioInputs where
  label := "Start from Scratch"
  scenario_type := "Start from Scratch"
  stress_case := "Base"
  initial_cash := 0
  revenue_growth := -0.6
  gross_margin := 0.5
  opex_frac := 0.5
  capex_frac := 0
  owner_draw := 0
  equity_injection := 0
  construction_start := ⟨2026, 1⟩
  construction_duration_months := 0
  family_basket_value := 1
  families_per_month := 1
  loan_amount := 0
  loan_rate := 0
  loan_term_years := 1

/-- The counterexample record with the Upside stress case. -/
noncomputable def c2up : ScenarioInputs := { c2base with stress_case := "Upside" }

/-- The counterexample record with the Downside stress case. -/
noncomputable def c2down : ScenarioInputs := { c2base with stress_case := "Downside" }

/-- A register row used to instantiate the registry theorems. -/
noncomputable def c7row : RegRow :=
  { item_key := "gross_margin_target", low_case := some 0.30,
    base_value := some 0.40, high_case := some 0.45 }

/-- A register store whose cache holds a stale copy of the table, to
exercise the cache invalidation of the save path. -/
noncomputable def c7store : RegStore :=
  { disk := [c7row],
    cache := some [{ c7row with base_value := some 0.35 }] }

/-- A register row outside the driver whitelist. -/
noncomputable def c10rowOther : RegRow :=
  { item_key := "lease_rate_sqft", low_case := some 20,
    base_value := some 24, high_case := some 28 }

/-- A whitelisted register row whose high case column is NaN. -/
noncomputable def c10rowNaN : RegRow :=
  { item_key := "market_households", low_case := some 9000,
    base_value := some 12000, high_case := none }

/-- A two-row register table for the registry-lookup witnesses. -/
noncomputable def c10table : List RegRow := [c10rowOther, c10rowNaN]

/-- A successful `run_projection` call factors through the stress
preset resolved from the inputs' stress case. -/
theorem run_projection_some {inp : ScenarioInputs} {n : Nat} {sf : ℝ} {ms : CalDate}
    {r : ProjectionResult} (h : run_projection inp n sf ms = some r) :
    ∃ p, STRESS_CASES inp.stress_case = some p ∧ r = projWith inp p n sf ms := by
  unfold run_projection at h
  cases hs : STRESS_CASES inp.stress_case with
  | none => rw [hs] at h; exact Option.noConfusion h
  | some p =>
    rw [hs] at h
    exact ⟨p, rfl, (Option.some.inj h).symm⟩

/-- C1: for every `ScenarioInputs` and every horizon, the projection
produced by `run_projection` satisfies the cumulative-sum law:
`Cumulative Cash[0] = initial_cash + Net Cash Flow[0]` and, for every
`i > 0`, `Cumulative Cash[i] = Cumulative Cash[i-1] + Net Cash Flow[i]`. -/
theorem c1_cumulative_sum_law (inp : ScenarioInputs) (n : Nat) (sf : ℝ) (ms : CalDate)
    (r : ProjectionResult) (h : run_projection inp n sf ms = some r) :
    r.cumulativeCash 0 = inp.initial_cash + r.netCashFlow 0 ∧
      ∀ i, 0 < i → r.cumulativeCash i = r.cumulativeCash (i - 1) + r.netCashFlow i := by
  obtain ⟨p, _, hr⟩ := run_projection_some h
  subst hr
  refine ⟨rfl, fun i hi => ?_⟩
  cases i with
  | zero => exact absurd hi (lt_irrefl 0)
  | succ j =>
    show cumulativeCash inp p ms n (j + 1) = _
    rw [cumulativeCash]
    rfl

/-- Witness for C1 at a concrete scenario. -/
theorem c1_cumulative_sum_law_witness :
    (projWith sampleInputs basePreset 6 3 sampleStart).cumulativeCash 0 =
        sampleInputs.initial_cash +
          (projWith sampleInputs basePreset 6 3 sampleStart).netCashFlow 0 ∧
      ∀ i, 0 < i →
        (projWith sampleInputs basePreset 6 3 sampleStart).cumulativeCash i =
          (projWith sampleInputs basePreset 6 3 sampleStart).cumulativeCash (i - 1) +
            (projWith sampleInputs basePreset 6 3 sampleStart).netCashFlow i :=
  c1_cumulative_sum_law sampleInputs 6 3 sampleStart _ rfl

/-- C5: for every scenario and every month index strictly before the
launch offset, `Families Active` and `Revenue` are exactly 0. -/
theorem c5_prelaunch_zero (inp : ScenarioInputs) (n : Nat) (sf : ℝ) (ms : CalDate)
    (r : ProjectionResult) (h : run_projection inp n sf ms = some r) :
    ∀ i, i < launchOffset inp ms → r.familiesActive i = 0 ∧ r.revenue i = 0 := by
  obtain ⟨p, _, hr⟩ := run_projection_some h
  subst hr
  intro i hi
  have hfam : familiesActive inp ms i = 0 := by
    unfold familiesActive
    rw [if_neg (not_le.mpr hi)]
  refine ⟨hfam, ?_⟩
  show revenueCol inp p ms i = 0
  unfold revenueCol
  rw [hfam, zero_mul]

/-- Witness for C5: the sample scenario has launch offset 1, and month
0 has zero families and revenue. -/
theorem c5_prelaunch_zero_witness :
    (projWith sampleInputs basePreset 6 3 sampleStart).familiesActive 0 = 0 ∧
      (projWith sampleInputs basePreset 6 3 sampleStart).revenue 0 = 0 :=
  c5_prelaunch_zero sampleInputs 6 3 sampleStart _ rfl 0 (by decide)

/-- C8: the effective ratios `run_projection` uses after stress
adjustment are clamped: gross margin and opex ratio lie in
[0.05, 0.95] and growth is at most 0.9, for any caller-supplied
inputs whose stress case resolves. -/
theorem c8_ratios_clamped (inp : ScenarioInputs) (p : StressPreset)
    (hp : STRESS_CASES inp.stress_case = some p) :
    0.05 ≤ effMargin inp p ∧ effMargin inp p ≤ 0.95 ∧
      0.05 ≤ effOpex inp p ∧ effOpex inp p ≤ 0.95 ∧ effGrowth inp p ≤ 0.9 := by
  refine ⟨le_max_right _ _, ?_, le_max_right _ _, ?_, min_le_right _ _⟩
  · exact max_le (min_le_right _ _) (by norm_num)
  · exact max_le (min_le_right _ _) (by norm_num)

/-- Witness for C8 at a concrete scenario. -/
theorem c8_ratios_clamped_witness :
    0.05 ≤ effMargin sampleInputs basePreset ∧
      effMargin sampleInputs basePreset ≤ 0.95 ∧
      0.05 ≤ effOpex sampleInputs basePreset ∧
      effOpex sampleInputs basePreset ≤ 0.95 ∧
      effGrowth sampleInputs basePreset ≤ 0.9 :=
  c8_ratios_clamped sampleInputs basePreset rfl

/-- C4: with a zero loan rate and a positive loan amount (and the data
model's loan term of at least one year), the amortizing payment is the
straight-line division `loan_amount / (loan_term_years * 12)`, taken on
the zero-rate branch (the monthly rate is exactly 0, so the annuity
formula's branch is not selected). -/
theorem c4_zero_rate_loan (inp : ScenarioInputs) (h0 : inp.loan_rate = 0)
    (hl : 0 < inp.loan_amount) (hy : 1 ≤ inp.loan_term_years) :
    amortPayment inp = inp.loan_amount / ((inp.loan_term_years : ℝ) * 12) ∧
      loanRateMonthly inp = 0 := by
  have hr : loanRateMonthly inp = 0 := by
    unfold loanRateMonthly
    rw [if_pos h0]
  have hterm : termMonths inp = inp.loan_term_years * 12 := by
    unfold termMonths
    exact max_eq_right (by omega)
  refine ⟨?_, hr⟩
  unfold amortPayment
  rw [if_pos hr, hterm]
  push_cast
  ring

/-- Witness for C4: a 1200 loan at rate 0 over 10 years. -/
theorem c4_zero_rate_loan_witness :
    amortPayment c4inputs = c4inputs.loan_amount / ((c4inputs.loan_term_years : ℝ) * 12) ∧
      loanRateMonthly c4inputs = 0 :=
  c4_zero_rate_loan c4inputs rfl (by norm_num [c4inputs]) (by norm_num [c4inputs])

/-- C9: the stress-case table holds exactly the three cases Base
(1.0, 1.0, 1.0), Upside (1.2, 1.05, 0.92) and Downside
(0.7, 0.9, 1.12); any other case name fails the lookup, and
`run_projection` on such inputs terminates at the lookup (`none`,
modelling the raised `KeyError`) instead of defaulting. -/
theorem c9_stress_case_table :
    STRESS_CASES "Base" = some ⟨1.0, 1.0, 1.0, "Balanced outlook"⟩ ∧
      STRESS_CASES "Upside" = some ⟨1.2, 1.05, 0.92, "Optimistic demand"⟩ ∧
      STRESS_CASES "Downside" = some ⟨0.7, 0.9, 1.12, "Conservative stress"⟩ ∧
      (∀ name, name ∉ (["Base", "Upside", "Downside"] : List String) →
        STRESS_CASES name = none) ∧
      ∀ (inp : ScenarioInputs) (n : Nat) (sf : ℝ) (ms : CalDate),
        inp.stress_case ∉ (["Base", "Upside", "Downside"] : List String) →
        run_projection inp n sf ms = none := by
  have hnone : ∀ name, name ∉ (["Base", "Upside", "Downside"] : List String) →
      STRESS_CASES name = none := by
    intro name hname
    simp only [List.mem_cons, List.not_mem_nil, or_false, not_or] at hname
    obtain ⟨h1, h2, h3⟩ := hname
    unfold STRESS_CASES
    rw [if_neg h1, if_neg h2, if_neg h3]
  refine ⟨rfl, rfl, rfl, hnone, fun inp n sf ms hname => ?_⟩
  unfold run_projection
  rw [hnone inp.stress_case hname]
  rfl

/-- Witness for C9: the lookup of the unknown case "Flat" fails, and
`run_projection` fails with it. -/
theorem c9_stress_case_table_witness :
    STRESS_CASES "Flat" = none ∧
      run_projection { sampleInputs with stress_case := "Flat" } 12 3 sampleStart = none :=
  ⟨c9_stress_case_table.2.2.2.1 "Flat" (by decide),
    c9_stress_case_table.2.2.2.2 { sampleInputs with stress_case := "Flat" } 12 3
      sampleStart (by decide)⟩

/-- The running minimum of cumulative cash is nonnegative when every
cumulative cash value up to that index is. -/
theorem minCumCash_nonneg (inp : ScenarioInputs) (p : StressPreset) (ms : CalDate)
    (n : Nat) (m : Nat) (h : ∀ i, i ≤ m → 0 ≤ cumulativeCash inp p ms n i) :
    0 ≤ minCumCash inp p ms n m := by
  induction m with
  | zero => exact h 0 le_rfl
  | succ k ih =>
    exact le_min (ih fun i hi => h i (le_trans hi (Nat.le_succ k)))
      (h (k + 1) le_rfl)

/-- C6: when cumulative cash never goes negative across the horizon,
`run_projection` reports an infinite runway (modelled by `none`, the
Python `float("inf")`) and a cash shortfall of exactly 0. -/
theorem c6_no_shortfall (inp : ScenarioInputs) (n : Nat) (sf : ℝ) (ms : CalDate)
    (r : ProjectionResult) (h : run_projection inp n sf ms = some r) (hn : 0 < n)
    (hpos : ∀ i, i < n → 0 ≤ r.cumulativeCash i) :
    r.runway_months = none ∧ r.cash_shortfall = 0 := by
  obtain ⟨p, _, hr⟩ := run_projection_some h
  subst hr
  have hempty : ¬∃ i, i < n ∧ cumulativeCash inp p ms n i < 0 := by
    rintro ⟨i, hi, hneg⟩
    exact absurd (hpos i hi) (not_le.mpr hneg)
  constructor
  · show (runwayIdx inp p ms n).map _ = none
    unfold runwayIdx
    rw [dif_neg hempty]
    rfl
  · show (if minCumCash inp p ms n (n - 1) < 0 then |minCumCash inp p ms n (n - 1)|
      else 0) = 0
    have hmin : 0 ≤ minCumCash inp p ms n (n - 1) :=
      minCumCash_nonneg inp p ms n (n - 1) fun i hi => hpos i (by omega)
    rw [if_neg (not_lt.mpr hmin)]

/-- Witness for C6: a one-month projection of the sample scenario,
whose only cumulative cash value is 99. -/
theorem c6_no_shortfall_witness :
    (projWith sampleInputs basePreset 1 3 sampleStart).runway_months = none ∧
      (projWith sampleInputs basePreset 1 3 sampleStart).cash_shortfall = 0 :=
  c6_no_shortfall sampleInputs 1 3 sampleStart _ rfl (by norm_num)
    (by
      intro i hi
      interval_cases i
      have hL : launchOffset sampleInputs sampleStart = 1 := by decide
      have hfam : familiesActive sampleInputs sampleStart 0 = 0 := by
        unfold familiesActive
        rw [hL]
        norm_num
      have hrev : revenueCol sampleInputs basePreset sampleStart 0 = 0 := by
        unfold revenueCol
        rw [hfam, zero_mul]
      show (0 : ℝ) ≤ cumulativeCash sampleInputs basePreset sampleStart 1 0
      rw [cumulativeCash]
      unfold netCashFlow ebitdaCol cogsCol opexCol capexCol ownerDrawCol
        financingCol debtServiceCol
      rw [hrev]
      norm_num [sampleInputs])

/-- C3: in the concrete scenario (initial cash 200000, no loan, owner
draw 10000, 120 families/month, basket 450, 12-month construction from
the model start, horizon 36, growth 0.15, margin 0.33, opex 0.35,
capex 0.04, Base stress, no equity), `run_projection` yields revenue
exactly 0 in months 0-11, nonzero revenue in every month from 12 on,
and a net cash flow of -10000 in month 0. -/
theorem c3_concrete_scenario :
    run_projection c3inputs 36 6 sampleStart = some c3res ∧
      (∀ i, i < 12 → c3res.revenue i = 0) ∧
      (∀ i, 12 ≤ i → i < 36 → c3res.revenue i ≠ 0) ∧
      c3res.netCashFlow 0 = -10000 := by
  have hL : launchOffset c3inputs sampleStart = 12 := by decide
  have hrev0 : ∀ i, i < 12 → revenueCol c3inputs basePreset sampleStart i = 0 := by
    intro i hi
    unfold revenueCol familiesActive
    rw [hL, if_neg (by omega), zero_mul]
  refine ⟨rfl, fun i hi => hrev0 i hi, ?_, ?_⟩
  · intro i hi _
    show revenueCol c3inputs basePreset sampleStart i ≠ 0
    have hg : effGrowth c3inputs basePreset = 0.15 := by
      unfold effGrowth
      norm_num [c3inputs, basePreset, min_def]
    have hgpos : (0 : ℝ) < 1 + monthlyGrowth c3inputs basePreset := by
      unfold monthlyGrowth
      have hrp : (0 : ℝ) < (1 + effGrowth c3inputs basePreset) ^ ((1 : ℝ) / 12) := by
        apply Real.rpow_pos_of_pos
        rw [hg]
        norm_num
      linarith
    have hfam : (0 : ℝ) < familiesActive c3inputs sampleStart i := by
      unfold familiesActive
      rw [hL, if_pos hi]
      have hcast : (0 : ℝ) < ((i - 12 + 1 : Nat) : ℝ) := by
        exact_mod_cast Nat.succ_pos (i - 12)
      have hfpm : c3inputs.families_per_month = 120 := rfl
      rw [hfpm]
      positivity
    have hbask : (0 : ℝ) < basketSeries c3inputs basePreset sampleStart i := by
      unfold basketSeries
      rw [hL, if_pos hi]
      have hfbv : c3inputs.family_basket_value = 450 := rfl
      rw [hfbv]
      positivity
    exact (mul_pos hfam hbask).ne'
  · show netCashFlow c3inputs basePreset sampleStart 36 0 = -10000
    have h0 : revenueCol c3inputs basePreset sampleStart 0 = 0 := hrev0 0 (by norm_num)
    unfold netCashFlow ebitdaCol cogsCol opexCol capexCol ownerDrawCol financingCol
      debtServiceCol
    rw [h0]
    norm_num [c3inputs]

/-- Witness for C3 at particular months: month 0 has zero revenue,
month 12 has nonzero revenue, and month 0 nets -10000. -/
theorem c3_concrete_scenario_witness :
    c3res.revenue 0 = 0 ∧ c3res.revenue 12 ≠ 0 ∧ c3res.netCashFlow 0 = -10000 :=
  ⟨c3_concrete_scenario.2.1 0 (by norm_num),
    c3_concrete_scenario.2.2.1 12 (by norm_num) (by norm_num),
    c3_concrete_scenario.2.2.2⟩

/-- Writing a case column leaves the row key unchanged. -/
theorem setCol_item_key (r : RegRow) (c : CaseCol) (v : ℝ) :
    (setCol r c v).item_key = r.item_key := by
  cases c <;> rfl

/-- Reading back the case column just written yields the written value. -/
theorem getCol_setCol (r : RegRow) (c : CaseCol) (v : ℝ) :
    getCol (setCol r c v) c = some v := by
  cases c <;> rfl

/-- C7: writing a value into a key's case column and persisting through
`save_assumptions_register` (the assumptions editor's save path), then
performing a fresh load, returns exactly that value for that key and
case — the save invalidates any cached table, so the subsequent read
sees the update even when the cache held a stale copy. -/
theorem c7_register_round_trip (s : RegStore) (key case : String) (v : ℝ)
    (hcase : case ∈ (["Conservative", "Likely", "Aggressive"] : List String))
    (hkey : ∃ r ∈ (load_assumptions_register s).1, r.item_key = key) :
    (∃ r ∈ (load_assumptions_register (update_and_persist s key case v)).1,
        r.item_key = key) ∧
      ∀ r ∈ (load_assumptions_register (update_and_persist s key case v)).1,
        r.item_key = key → getCol r (caseToColumn case) = some v := by
  have htable : (load_assumptions_register (update_and_persist s key case v)).1 =
      writeCase (load_assumptions_register s).1 key (caseToColumn case) v := rfl
  rw [htable]
  constructor
  · obtain ⟨r0, hr0, hk0⟩ := hkey
    refine ⟨setCol r0 (caseToColumn case) v, ?_, by rw [setCol_item_key]; exact hk0⟩
    unfold writeCase
    have hbeta : (fun r => if r.item_key = key then setCol r (caseToColumn case) v
        else r) r0 = setCol r0 (caseToColumn case) v := by
      show (if r0.item_key = key then setCol r0 (caseToColumn case) v else r0) = _
      rw [if_pos hk0]
    rw [← hbeta]
    exact List.mem_map_of_mem _ hr0
  · intro r hr hrk
    unfold writeCase at hr
    obtain ⟨r0, _, heq⟩ := List.mem_map.mp hr
    by_cases h0 : r0.item_key = key
    · rw [if_pos h0] at heq
      rw [← heq]
      exact getCol_setCol r0 (caseToColumn case) v
    · rw [if_neg h0] at heq
      rw [heq] at h0
      exact absurd hrk h0

/-- Witness for C7: update the gross-margin target's Likely value to
0.6 in a store whose cache holds a stale table. -/
theorem c7_register_round_trip_witness :
    (∃ r ∈ (load_assumptions_register
        (update_and_persist c7store "gross_margin_target" "Likely" 0.6)).1,
        r.item_key = "gross_margin_target") ∧
      ∀ r ∈ (load_assumptions_register
          (update_and_persist c7store "gross_margin_target" "Likely" 0.6)).1,
        r.item_key = "gross_margin_target" →
          getCol r (caseToColumn "Likely") = some 0.6 :=
  c7_register_round_trip c7store "gross_margin_target" "Likely" 0.6 (by decide)
    ⟨{ c7row with base_value := some 0.35 }, by
      show _ ∈ (load_assumptions_register c7store).1
      rw [show (load_assumptions_register c7store).1 =
        [{ c7row with base_value := some 0.35 }] from rfl]
      exact List.mem_singleton.mpr rfl, rfl⟩

/-- A fold step whose row either has a different key or is not
whitelisted leaves the dict unchanged at `k`. -/
theorem gmaStep_preserve (case : String) (d : String → Option ℝ) (r : RegRow)
    (k : String) (h : r.item_key ≠ k ∨ r.item_key ∉ MODEL_DRIVER_KEYS) :
    gmaStep case d r k = d k := by
  unfold gmaStep
  by_cases hw : r.item_key ∈ MODEL_DRIVER_KEYS
  · rw [if_pos hw]
    have hne : r.item_key ≠ k := h.resolve_right (fun hc => hc hw)
    cases hc : getCol r (caseToColumn case) with
    | none => rfl
    | some v =>
      show (fun k0 => if k0 = r.item_key then some v else d k0) k = d k
      exact if_neg (fun e => hne e.symm)
  · rw [if_neg hw]

/-- Folding over rows that never touch `k` leaves the dict unchanged
at `k`. -/
theorem gma_foldl_preserve (case : String) (k : String) (t : List RegRow) :
    ∀ d : String → Option ℝ,
      (∀ r ∈ t, r.item_key ≠ k ∨ r.item_key ∉ MODEL_DRIVER_KEYS) →
      t.foldl (gmaStep case) d k = d k := by
  induction t with
  | nil => intro d _; rfl
  | cons r0 rest ih =>
    intro d h
    rw [List.foldl_cons]
    rw [ih (gmaStep case d r0) (fun r hr => h r (List.mem_cons_of_mem r0 hr))]
    exact gmaStep_preserve case d r0 k (h r0 (List.mem_cons_self r0 rest))

/-- The dict lookup of `get_model_assumptions` at a whitelisted key
with exactly one matching row returns that row's case column. -/
theorem gma_foldl_unique (case : String) (k : String) (r : RegRow) (t : List RegRow) :
    ∀ d : String → Option ℝ,
      t.filter (fun x => x.item_key = k) = [r] → k ∈ MODEL_DRIVER_KEYS →
      d k = none → t.foldl (gmaStep case) d k = getCol r (caseToColumn case) := by
  induction t with
  | nil => intro d hf _ _; exact absurd hf (by simp)
  | cons r0 rest ih =>
    intro d hf hk hd
    by_cases h0 : r0.item_key = k
    · rw [List.filter_cons_of_pos (by simp [h0])] at hf
      have hr0 : r0 = r := (List.cons_eq_cons.mp hf).1
      have hrest : rest.filter (fun x => x.item_key = k) = [] :=
        (List.cons_eq_cons.mp hf).2
      have hnone : ∀ x ∈ rest, x.item_key ≠ k ∨ x.item_key ∉ MODEL_DRIVER_KEYS := by
        intro x hx
        left
        have := List.filter_eq_nil_iff.mp hrest x hx
        simpa using this
      rw [List.foldl_cons, gma_foldl_preserve case k rest (gmaStep case d r0) hnone]
      subst hr0
      unfold gmaStep
      rw [if_pos (h0 ▸ hk)]
      cases hc : getCol r0 (caseToColumn case) with
      | none => exact hd
      | some v =>
        show (fun k0 => if k0 = r0.item_key then some v else d k0) k = some v
        exact if_pos h0.symm
    · rw [List.filter_cons_of_neg (by simp [h0])] at hf
      rw [List.foldl_cons]
      exact ih (gmaStep case d r0) hf hk
        (by rw [gmaStep_preserve case d r0 k (Or.inl h0)]; exact hd)

/-- C10: `get_model_assumptions` never fails on an unrecognized case
name: it falls back to the `base_value` (Likely) column and returns
those values, in contrast to the fail-fast stress-case lookup; for a
recognized case it returns, per whitelisted driver key, that case's
column value, omitting keys whose cell is absent (NaN), and it never
returns a value for a key outside the whitelist. -/
theorem c10_case_fallback_and_lookup :
    (∀ (t : List RegRow) (case : String),
        case ∉ (["Conservative", "Likely", "Aggressive"] : List String) →
        get_model_assumptions t case = get_model_assumptions t "Likely") ∧
      (∀ (t : List RegRow) (case k : String) (r : RegRow),
        case ∈ (["Conservative", "Likely", "Aggressive"] : List String) →
        t.filter (fun x => x.item_key = k) = [r] → k ∈ MODEL_DRIVER_KEYS →
        get_model_assumptions t case k = getCol r (caseToColumn case)) ∧
      ∀ (t : List RegRow) (case k : String), k ∉ MODEL_DRIVER_KEYS →
        get_model_assumptions t case k = none := by
  refine ⟨?_, ?_, ?_⟩
  · intro t case hcase
    simp only [List.mem_cons, List.not_mem_nil, or_false, not_or] at hcase
    obtain ⟨h1, h2, h3⟩ := hcase
    have hcol : caseToColumn case = caseToColumn "Likely" := by
      unfold caseToColumn
      rw [if_neg h1, if_neg h2, if_neg h3]
      rfl
    have hstep : gmaStep case = gmaStep "Likely" := by
      funext d r
      unfold gmaStep
      rw [hcol]
    unfold get_model_assumptions
    rw [hstep]
  · intro t case k r _ hf hk
    exact gma_foldl_unique case k r t _ hf hk rfl
  · intro t case k hk
    have h1 : ∀ r ∈ t, r.item_key ≠ k ∨ r.item_key ∉ MODEL_DRIVER_KEYS := by
      intro r _
      by_cases h : r.item_key = k
      · exact Or.inr (fun hw => hk (h ▸ hw))
      · exact Or.inl h
    show t.foldl (gmaStep case) (fun _ => none) k = none
    exact gma_foldl_preserve case k t _ h1

/-- Witness for C10: an unknown case falls back to the Likely column;
the NaN high-case cell of a whitelisted key is omitted; a key outside
the whitelist is never returned. -/
theorem c10_case_fallback_and_lookup_witness :
    get_model_assumptions c10table "Bogus" = get_model_assumptions c10table "Likely" ∧
      get_model_assumptions c10table "Likely" "market_households" =
        getCol c10rowNaN (caseToColumn "Likely") ∧
      get_model_assumptions c10table "Aggressive" "market_households" =
        getCol c10rowNaN (caseToColumn "Aggressive") ∧
      get_model_assumptions c10table "Likely" "lease_rate_sqft" = none :=
  ⟨c10_case_fallback_and_lookup.1 c10table "Bogus" (by decide),
    c10_case_fallback_and_lookup.2.1 c10table "Likely" "market_households" c10rowNaN
      (by decide) rfl (by decide),
    c10_case_fallback_and_lookup.2.1 c10table "Aggressive" "market_households" c10rowNaN
      (by decide) rfl (by decide),
    c10_case_fallback_and_lookup.2.2 c10table "Likely" "lease_rate_sqft" (by decide)⟩

/-- Raising the twelfth-root power of a nonnegative real to the 12th
power recovers the base. -/
theorem rpow_one_twelfth_pow {a : ℝ} (ha : 0 ≤ a) :
    (a ^ ((1 : ℝ) / 12)) ^ (12 : Nat) = a := by
  rw [← Real.rpow_natCast (a ^ ((1 : ℝ) / 12)) 12, ← Real.rpow_mul ha]
  norm_num

/-- The effective growth of the Downside run is nonnegative and at most
that of the Upside run, for a nonnegative caller-supplied growth. -/
theorem effGrowth_up_down (s : ScenarioInputs) (hg : 0 ≤ s.revenue_growth) :
    0 ≤ effGrowth s downsidePreset ∧
      effGrowth s downsidePreset ≤ effGrowth s upsidePreset := by
  unfold effGrowth
  simp only [downsidePreset, upsidePreset]
  constructor
  · exact le_min (by nlinarith) (by norm_num)
  · exact min_le_min (by nlinarith) le_rfl

/-- The monthly basket growth factor of the Downside run is nonnegative
and at most that of the Upside run. -/
theorem basket_factor_up_down (s : ScenarioInputs) (hg : 0 ≤ s.revenue_growth) :
    0 ≤ 1 + monthlyGrowth s downsidePreset ∧
      1 + monthlyGrowth s downsidePreset ≤ 1 + monthlyGrowth s upsidePreset := by
  obtain ⟨hd0, hdu⟩ := effGrowth_up_down s hg
  unfold monthlyGrowth
  constructor
  · have h := Real.rpow_nonneg
      (by linarith : (0 : ℝ) ≤ 1 + effGrowth s downsidePreset) ((1 : ℝ) / 12)
    linarith
  · have h := Real.rpow_le_rpow
      (by linarith : (0 : ℝ) ≤ 1 + effGrowth s downsidePreset)
      (by linarith : 1 + effGrowth s downsidePreset ≤ 1 + effGrowth s upsidePreset)
      (by norm_num : (0 : ℝ) ≤ (1 : ℝ) / 12)
    linarith

/-- Monthly revenue of the Downside run is nonnegative and at most that
of the Upside run, for nonnegative growth, basket value and family
intake. -/
theorem revenueCol_up_down (s : ScenarioInputs) (ms : CalDate)
    (hg : 0 ≤ s.revenue_growth) (hb : 0 ≤ s.family_basket_value)
    (hf : 0 ≤ s.families_per_month) (i : Nat) :
    0 ≤ revenueCol s downsidePreset ms i ∧
      revenueCol s downsidePreset ms i ≤ revenueCol s upsidePreset ms i := by
  obtain ⟨hB0, hBud⟩ := basket_factor_up_down s hg
  unfold revenueCol familiesActive basketSeries
  by_cases hi : launchOffset s ms ≤ i
  · simp only [if_pos hi]
    have hcount : (0 : ℝ) ≤ ((i - launchOffset s ms + 1 : Nat) : ℝ) := by positivity
    constructor
    · exact mul_nonneg (mul_nonneg hf hcount)
        (mul_nonneg hb (pow_nonneg hB0 _))
    · exact mul_le_mul_of_nonneg_left
        (mul_le_mul_of_nonneg_left (pow_le_pow_left hB0 hBud _) hb)
        (mul_nonneg hf hcount)
  · simp only [if_neg hi]
    norm_num

/-- The effective gross margin of the Downside run is at most that of
the Upside run, for a nonnegative caller-supplied margin. -/
theorem effMargin_up_down (s : ScenarioInputs) (hm : 0 ≤ s.gross_margin) :
    effMargin s downsidePreset ≤ effMargin s upsidePreset := by
  unfold effMargin
  simp only [downsidePreset, upsidePreset]
  exact max_le_max (min_le_min (by nlinarith) le_rfl) le_rfl

/-- The effective opex ratio of the Upside run is at most that of the
Downside run, for a nonnegative caller-supplied opex ratio. -/
theorem effOpex_up_down (s : ScenarioInputs) (ho : 0 ≤ s.opex_frac) :
    effOpex s upsidePreset ≤ effOpex s downsidePreset := by
  unfold effOpex
  simp only [downsidePreset, upsidePreset]
  exact max_le_max (min_le_min (by nlinarith) le_rfl) le_rfl

/-- Net cash flow regrouped: the operating part is revenue times
(margin - opex - capex ratio); the remaining terms do not depend on the
stress preset. -/
theorem netCashFlow_eq (inp : ScenarioInputs) (p : StressPreset) (ms : CalDate)
    (n i : Nat) :
    netCashFlow inp p ms n i =
      revenueCol inp p ms i * (effMargin inp p - effOpex inp p - inp.capex_frac) +
        (ownerDrawCol inp + financingCol inp ms n i + debtServiceCol inp ms i) := by
  unfold netCashFlow ebitdaCol cogsCol opexCol capexCol
  ring

/-- Monthly net cash flow of the Downside run is at most that of the
Upside run when the Downside operating factor is nonnegative. -/
theorem netCashFlow_up_down (s : ScenarioInputs) (ms : CalDate) (n : Nat)
    (hg : 0 ≤ s.revenue_growth) (hm : 0 ≤ s.gross_margin) (ho : 0 ≤ s.opex_frac)
    (hb : 0 ≤ s.family_basket_value) (hf : 0 ≤ s.families_per_month)
    (hfac : 0 ≤ effMargin s downsidePreset - effOpex s downsidePreset - s.capex_frac)
    (i : Nat) :
    netCashFlow s downsidePreset ms n i ≤ netCashFlow s upsidePreset ms n i := by
  rw [netCashFlow_eq, netCashFlow_eq]
  obtain ⟨hr0, hrud⟩ := revenueCol_up_down s ms hg hb hf i
  have hfud : effMargin s downsidePreset - effOpex s downsidePreset - s.capex_frac ≤
      effMargin s upsidePreset - effOpex s upsidePreset - s.capex_frac := by
    have h1 := effMargin_up_down s hm
    have h2 := effOpex_up_down s ho
    linarith
  have h := mul_le_mul hrud hfud hfac (le_trans hr0 hrud)
  linarith

/-- Cumulative cash of the Downside run is pointwise at most that of
the Upside run under the conditions of `netCashFlow_up_down`. -/
theorem cumulativeCash_up_down (s : ScenarioInputs) (ms : CalDate) (n : Nat)
    (hg : 0 ≤ s.revenue_growth) (hm : 0 ≤ s.gross_margin) (ho : 0 ≤ s.opex_frac)
    (hb : 0 ≤ s.family_basket_value) (hf : 0 ≤ s.families_per_month)
    (hfac : 0 ≤ effMargin s downsidePreset - effOpex s downsidePreset - s.capex_frac)
    (i : Nat) :
    cumulativeCash s downsidePreset ms n i ≤ cumulativeCash s upsidePreset ms n i := by
  induction i with
  | zero =>
    have h := netCashFlow_up_down s ms n hg hm ho hb hf hfac 0
    rw [cumulativeCash, cumulativeCash]
    linarith
  | succ k ih =>
    have h := netCashFlow_up_down s ms n hg hm ho hb hf hfac (k + 1)
    rw [cumulativeCash, cumulativeCash]
    linarith

/-- The running minimum of cumulative cash of the Downside run is at
most that of the Upside run. -/
theorem minCumCash_up_down (s : ScenarioInputs) (ms : CalDate) (n : Nat)
    (hg : 0 ≤ s.revenue_growth) (hm : 0 ≤ s.gross_margin) (ho : 0 ≤ s.opex_frac)
    (hb : 0 ≤ s.family_basket_value) (hf : 0 ≤ s.families_per_month)
    (hfac : 0 ≤ effMargin s downsidePreset - effOpex s downsidePreset - s.capex_frac)
    (m : Nat) :
    minCumCash s downsidePreset ms n m ≤ minCumCash s upsidePreset ms n m := by
  induction m with
  | zero =>
    rw [minCumCash, minCumCash]
    exact cumulativeCash_up_down s ms n hg hm ho hb hf hfac 0
  | succ k ih =>
    rw [minCumCash, minCumCash]
    exact min_le_min ih (cumulativeCash_up_down s ms n hg hm ho hb hf hfac (k + 1))

/-- `revenueCol` does not read the stress-case name field. -/
theorem revenueCol_stress_irrel (s : ScenarioInputs) (c : String) (p : StressPreset)
    (ms : CalDate) (i : Nat) :
    revenueCol { s with stress_case := c } p ms i = revenueCol s p ms i := rfl

/-- `netCashFlow` does not read the stress-case name field. -/
theorem netCashFlow_stress_irrel (s : ScenarioInputs) (c : String) (p : StressPreset)
    (ms : CalDate) (n i : Nat) :
    netCashFlow { s with stress_case := c } p ms n i = netCashFlow s p ms n i := rfl

/-- `cumulativeCash` does not read the stress-case name field. -/
theorem cumulativeCash_stress_irrel (s : ScenarioInputs) (c : String) (p : StressPreset)
    (ms : CalDate) (n i : Nat) :
    cumulativeCash { s with stress_case := c } p ms n i =
      cumulativeCash s p ms n i := by
  induction i with
  | zero => rw [cumulativeCash, cumulativeCash, netCashFlow_stress_irrel]
  | succ k ih => rw [cumulativeCash, cumulativeCash, ih, netCashFlow_stress_irrel]

/-- `minCumCash` does not read the stress-case name field. -/
theorem minCumCash_stress_irrel (s : ScenarioInputs) (c : String) (p : StressPreset)
    (ms : CalDate) (n m : Nat) :
    minCumCash { s with stress_case := c } p ms n m = minCumCash s p ms n m := by
  induction m with
  | zero => rw [minCumCash, minCumCash, cumulativeCash_stress_irrel]
  | succ k ih => rw [minCumCash, minCumCash, ih, cumulativeCash_stress_irrel]

/-- C2 (amended): for identical inputs apart from the stress case and
with the nonnegative driver values the input widgets guarantee
(growth, margin, opex ratio, basket value, families per month all
≥ 0), the Upside run's revenue is at least the Downside run's in every
month; and when additionally the Downside run's effective operating
factor (margin - opex - capex ratio) is nonnegative, the Upside run's
minimum cumulative cash is at least the Downside run's. -/
theorem c2_upside_downside_amended (s : ScenarioInputs) (n : Nat) (sf : ℝ) (ms : CalDate)
    (hg : 0 ≤ s.revenue_growth) (hm : 0 ≤ s.gross_margin) (ho : 0 ≤ s.opex_frac)
    (hb : 0 ≤ s.family_basket_value) (hf : 0 ≤ s.families_per_month)
    (rUp rDown : ProjectionResult)
    (hUp : run_projection { s with stress_case := "Upside" } n sf ms = some rUp)
    (hDown : run_projection { s with stress_case := "Downside" } n sf ms = some rDown) :
    (∀ i, rDown.revenue i ≤ rUp.revenue i) ∧
      (0 ≤ effMargin s downsidePreset - effOpex s downsidePreset - s.capex_frac →
        rDown.min_cash ≤ rUp.min_cash) := by
  obtain ⟨pu, hpu, hru⟩ := run_projection_some hUp
  obtain ⟨pd, hpd, hrd⟩ := run_projection_some hDown
  have hpu2 : pu = upsidePreset := by
    have h : STRESS_CASES "Upside" = some pu := hpu
    rw [show STRESS_CASES "Upside" = some upsidePreset from rfl] at h
    exact (Option.some.inj h).symm
  have hpd2 : pd = downsidePreset := by
    have h : STRESS_CASES "Downside" = some pd := hpd
    rw [show STRESS_CASES "Downside" = some downsidePreset from rfl] at h
    exact (Option.some.inj h).symm
  subst hru hrd hpu2 hpd2
  constructor
  · intro i
    show revenueCol { s with stress_case := "Downside" } downsidePreset ms i ≤
      revenueCol { s with stress_case := "Upside" } upsidePreset ms i
    rw [revenueCol_stress_irrel s "Downside" downsidePreset ms i,
      revenueCol_stress_irrel s "Upside" upsidePreset ms i]
    exact (revenueCol_up_down s ms hg hb hf i).2
  · intro hfac
    show minCumCash { s with stress_case := "Downside" } downsidePreset ms n (n - 1) ≤
      minCumCash { s with stress_case := "Upside" } upsidePreset ms n (n - 1)
    rw [minCumCash_stress_irrel s "Downside" downsidePreset ms n (n - 1),
      minCumCash_stress_irrel s "Upside" upsidePreset ms n (n - 1)]
    exact minCumCash_up_down s ms n hg hm ho hb hf hfac (n - 1)

/-- Witness for the amended C2 at the sample scenario, whose Downside
operating factor 0.45 - 0.336 - 0.1 is nonnegative. -/
theorem c2_upside_downside_amended_witness :
    (∀ i, (projWith { sampleInputs with stress_case := "Downside" } downsidePreset 6 3
          sampleStart).revenue i ≤
        (projWith { sampleInputs with stress_case := "Upside" } upsidePreset 6 3
          sampleStart).revenue i) ∧
      (projWith { sampleInputs with stress_case := "Downside" } downsidePreset 6 3
          sampleStart).min_cash ≤
        (projWith { sampleInputs with stress_case := "Upside" } upsidePreset 6 3
          sampleStart).min_cash :=
  ⟨(c2_upside_downside_amended sampleInputs 6 3 sampleStart
      (by norm_num [sampleInputs]) (by norm_num [sampleInputs])
      (by norm_num [sampleInputs]) (by norm_num [sampleInputs])
      (by norm_num [sampleInputs]) _ _ rfl rfl).1,
    (c2_upside_downside_amended sampleInputs 6 3 sampleStart
      (by norm_num [sampleInputs]) (by norm_num [sampleInputs])
      (by norm_num [sampleInputs]) (by norm_num [sampleInputs])
      (by norm_num [sampleInputs]) _ _ rfl rfl).2
      (by norm_num [effMargin, effOpex, sampleInputs, downsidePreset, min_def, max_def])⟩

/-- C2 counterexample: with a negative caller-supplied revenue growth
(-0.6), identical inputs under the Upside and Downside stress cases
(horizon 13, same safety target and model start) give the Upside run
strictly LESS revenue than the Downside run in month 12
(13 * 0.28 < 13 * 0.58): growth is capped above at 0.9 but never
floored, so the larger Upside growth multiplier amplifies a decline.
The claim's universally quantified revenue comparison is therefore
false. -/
theorem c2_upside_downside_counterexample :
    run_projection c2up 13 0 sampleStart =
        some (projWith c2up upsidePreset 13 0 sampleStart) ∧
      run_projection c2down 13 0 sampleStart =
        some (projWith c2down downsidePreset 13 0 sampleStart) ∧
      (projWith c2up upsidePreset 13 0 sampleStart).revenue 12 <
        (projWith c2down downsidePreset 13 0 sampleStart).revenue 12 := by
  refine ⟨rfl, rfl, ?_⟩
  show revenueCol c2up upsidePreset sampleStart 12 <
    revenueCol c2down downsidePreset sampleStart 12
  have hLu : launchOffset c2up sampleStart = 0 := by decide
  have hLd : launchOffset c2down sampleStart = 0 := by decide
  have hgu : (1 : ℝ) + effGrowth c2up upsidePreset = 0.28 := by
    unfold effGrowth
    rw [show c2up.revenue_growth = -0.6 from rfl,
      show upsidePreset.growth = 1.2 from rfl]
    norm_num [min_def]
  have hgd : (1 : ℝ) + effGrowth c2down downsidePreset = 0.58 := by
    unfold effGrowth
    rw [show c2down.revenue_growth = -0.6 from rfl,
      show downsidePreset.growth = 0.7 from rfl]
    norm_num [min_def]
  have hBu : ((1 : ℝ) + monthlyGrowth c2up upsidePreset) ^ (12 : Nat) = 0.28 := by
    unfold monthlyGrowth
    rw [show (1 : ℝ) + ((1 + effGrowth c2up upsidePreset) ^ ((1 : ℝ) / 12) - 1) =
      (1 + effGrowth c2up upsidePreset) ^ ((1 : ℝ) / 12) from by ring, hgu]
    exact rpow_one_twelfth_pow (by norm_num)
  have hBd : ((1 : ℝ) + monthlyGrowth c2down downsidePreset) ^ (12 : Nat) = 0.58 := by
    unfold monthlyGrowth
    rw [show (1 : ℝ) + ((1 + effGrowth c2down downsidePreset) ^ ((1 : ℝ) / 12) - 1) =
      (1 + effGrowth c2down downsidePreset) ^ ((1 : ℝ) / 12) from by ring, hgd]
    exact rpow_one_twelfth_pow (by norm_num)
  unfold revenueCol familiesActive basketSeries
  rw [hLu, hLd]
  simp only [if_pos (Nat.zero_le 12), Nat.sub_zero]
  rw [show c2up.families_per_month = 1 from rfl,
    show c2down.families_per_month = 1 from rfl,
    show c2up.family_basket_value = 1 from rfl,
    show c2down.family_basket_value = 1 from rfl, hBu, hBd]
  norm_num
